import Mathlib

/-!
Verification of the authentication-and-collection crawler core.

This file gives a shallow embedding of the components named by the
specification claims and proves or refutes each claim:

* `PaginationService` — `src/services/paginationService.ts`
* `scrollAndCollectData` — `src/steps/scrollAndCollectData.ts`
* `restoreSession` — `src/routes.ts`
* the interception/persistence pipeline — `src/helpers/setupRequestInterception.ts`
  together with the Prisma storage backend (`PrismaDatabase`)
* `SQLiteDatabase.insertAd` — the SQLite storage backend
* `checkForCaptcha` / `handleCaptcha` / `checkEmailVerification` — the
  challenge detectors
* the manual/API CAPTCHA wait loop of `handleCaptchaSolverApi`

Browser, filesystem and network interactions are modelled by explicit
oracles (functions supplied as parameters) describing what each probe,
navigation or remote call would answer; everything else is translated
directly from the TypeScript source.
-/

/-! ## Pagination Tracker (`src/services/paginationService.ts`) -/

/-- Pagination block of an intercepted API response (`TikTokApiPagination`). -/
structure TikTokApiPagination where
  page : Nat
  total_count : Nat
  size : Nat
deriving DecidableEq, Repr

/-- State of `PaginationService`: `currentPage = 1`, `totalItems = 0`,
`itemsPerPage = 0` at construction time. -/
structure PaginationService where
  currentPage : Nat := 1
  totalItems : Nat := 0
  itemsPerPage : Nat := 0
deriving DecidableEq, Repr

/-- A freshly constructed `PaginationService`. -/
def PaginationService.initial : PaginationService := {}

/-- `updatePagination` overwrites all three tracked fields from the incoming
pagination block, unconditionally (the previous state is not consulted). -/
def PaginationService.updatePagination : PaginationService → TikTokApiPagination → PaginationService :=
  fun _ p => { currentPage := p.page, totalItems := p.total_count, itemsPerPage := p.size }

/-- `getRequiredScrolls`: the JS guard `!this.totalItems || !this.itemsPerPage`
is zero-testing on numbers; `Math.ceil(a / b)` on naturals with `b ≠ 0` is
`(a + b - 1) / b` (proved below in `natCeil_div_eq`). -/
def PaginationService.getRequiredScrolls (s : PaginationService) : Nat :=
  if s.totalItems = 0 ∨ s.itemsPerPage = 0 then 20
  else (s.totalItems + s.itemsPerPage - 1) / s.itemsPerPage

/-- Result of a JS arithmetic expression that may not be a real number:
`0/0` is `NaN`, `n/0` for `n > 0` is `Infinity`. -/
inductive JSNum where
  | nan
  | posInf
  | num (n : Nat)
deriving DecidableEq, Repr

/-- A `JSNum` is a well-defined number only in the `num` case. -/
def JSNum.isWellDefined : JSNum → Bool
  | .num _ => true
  | _ => false

/-- `Math.ceil(a / b)` with JS division semantics on natural inputs. -/
def jsCeilOfDiv (a b : Nat) : JSNum :=
  if b = 0 then (if a = 0 then .nan else .posInf)
  else .num ((a + b - 1) / b)

/-- `getCurrentProgress` computes `Math.ceil(totalItems / itemsPerPage)` with
no zero guard, unlike `getRequiredScrolls`. -/
def PaginationService.getCurrentProgress (s : PaginationService) : Nat × JSNum :=
  (s.currentPage, jsCeilOfDiv s.totalItems s.itemsPerPage)

/-- The values of `getRequiredScrolls` observed after each update of a
sequence, in order. -/
def PaginationService.advancesTrace (s : PaginationService) : List TikTokApiPagination → List Nat
  | [] => []
  | u :: us =>
    let s' := s.updatePagination u
    s'.getRequiredScrolls :: s'.advancesTrace us

/-- On naturals, `Math.ceil` of the exact division equals `(t + c - 1) / c`. -/
theorem natCeil_div_eq (t c : Nat) (hc : c ≠ 0) :
    ⌈(t : ℚ) / (c : ℚ)⌉₊ = (t + c - 1) / c := by
  have hc0 : 0 < c := Nat.pos_of_ne_zero hc
  have hcq : (0 : ℚ) < (c : ℚ) := by exact_mod_cast hc0
  refine eq_of_forall_ge_iff fun n => ?_
  rw [Nat.ceil_le, div_le_iff₀ hcq, ← Nat.ceilDiv_eq_add_pred_div,
    ceilDiv_le_iff_le_smul hc0, smul_eq_mul]
  rw [show ((n : ℚ) * (c : ℚ)) = ((c * n : Nat) : ℚ) by push_cast; ring]
  exact_mod_cast Iff.rfl

theorem getRequiredScrolls_update (s : PaginationService) (u : TikTokApiPagination) :
    (s.updatePagination u).getRequiredScrolls =
      if u.total_count = 0 ∨ u.size = 0 then 20
      else (u.total_count + u.size - 1) / u.size := rfl

theorem advancesTrace_chain (c : Nat) (hc : c ≠ 0) (s : PaginationService)
    (us : List TikTokApiPagination)
    (hsize : ∀ u ∈ us, u.size = c)
    (hpos : ∀ u ∈ us, u.total_count ≠ 0)
    (hmono : us.Chain' (fun a b => a.total_count ≤ b.total_count)) :
    List.Chain' (· ≤ ·) (s.advancesTrace us) := by
  induction us generalizing s with
  | nil => simp [PaginationService.advancesTrace]
  | cons u us ih =>
    cases us with
    | nil => simp [PaginationService.advancesTrace]
    | cons u2 us2 =>
      have h1 : u.size = c := hsize u (by simp)
      have h2 : u2.size = c := hsize u2 (by simp)
      have hp1 : u.total_count ≠ 0 := hpos u (by simp)
      have hp2 : u2.total_count ≠ 0 := hpos u2 (by simp)
      have hm : u.total_count ≤ u2.total_count := (List.chain'_cons.mp hmono).1
      rw [PaginationService.advancesTrace, PaginationService.advancesTrace]
      rw [List.chain'_cons]
      constructor
      · rw [getRequiredScrolls_update, getRequiredScrolls_update, h1, h2,
          if_neg (by simp [hp1, hc]), if_neg (by simp [hp2, hc])]
        exact Nat.div_le_div_right (by omega)
      · rw [← PaginationService.advancesTrace]
        exact ih (s.updatePagination u) (fun v hv => hsize v (by simp [hv]))
          (fun v hv => hpos v (by simp [hv])) (List.chain'_cons.mp hmono).2

/-- C4 (counterexample): with updates whose `totalItems` only increases
(45 then 46) but whose `size` also changes (10 then 100), the observed
`requiredAdvances` go 5 then 1 — not monotonically non-decreasing. -/
theorem pagination_monotone_counterexample :
    ((⟨1, 45, 10⟩ : TikTokApiPagination).total_count ≤
      (⟨2, 46, 100⟩ : TikTokApiPagination).total_count) ∧
    PaginationService.initial.advancesTrace [⟨1, 45, 10⟩, ⟨2, 46, 100⟩] = [5, 1] ∧
    ¬ List.Chain' (· ≤ ·)
      (PaginationService.initial.advancesTrace [⟨1, 45, 10⟩, ⟨2, 46, 100⟩]) := by
  refine ⟨by decide, by decide, ?_⟩
  have htr : PaginationService.initial.advancesTrace [⟨1, 45, 10⟩, ⟨2, 46, 100⟩]
      = [5, 1] := by decide
  rw [htr]
  intro h
  exact absurd (List.chain'_pair.mp h) (by decide)

/-- C4 (amended): if all updates share one fixed nonzero page size and every
update carries a nonzero total, then `requiredAdvances()` observed after each
update is monotonically non-decreasing whenever `totalItems` only increases;
and before any update has been observed it returns the default 20. -/
theorem pagination_monotone_amended (c : Nat) (hc : c ≠ 0)
    (us : List TikTokApiPagination)
    (hsize : ∀ u ∈ us, u.size = c)
    (hpos : ∀ u ∈ us, u.total_count ≠ 0)
    (hmono : us.Chain' (fun a b => a.total_count ≤ b.total_count)) :
    List.Chain' (· ≤ ·) (PaginationService.initial.advancesTrace us) ∧
    PaginationService.initial.getRequiredScrolls = 20 :=
  ⟨advancesTrace_chain c hc PaginationService.initial us hsize hpos hmono, rfl⟩

theorem pagination_monotone_amended_witness :
    List.Chain' (· ≤ ·)
      (PaginationService.initial.advancesTrace [⟨1, 45, 20⟩, ⟨2, 60, 20⟩]) ∧
    PaginationService.initial.getRequiredScrolls = 20 :=
  pagination_monotone_amended 20 (by decide) [⟨1, 45, 20⟩, ⟨2, 60, 20⟩]
    (by decide) (by decide) (List.chain'_pair.mpr (by decide))

/-- C5: `getRequiredScrolls` returns the ceiling of `totalItems / pageSize`
when both are nonzero and the default 20 otherwise; updates overwrite state
unconditionally (last-write-wins); and scenario B evaluates as specified
(45/20 → 3, 60/20 → 3, 60/10 → 6). -/
theorem getRequiredScrolls_spec :
    (∀ s : PaginationService, s.totalItems ≠ 0 → s.itemsPerPage ≠ 0 →
      s.getRequiredScrolls = ⌈(s.totalItems : ℚ) / (s.itemsPerPage : ℚ)⌉₊) ∧
    (∀ s : PaginationService, s.totalItems = 0 ∨ s.itemsPerPage = 0 →
      s.getRequiredScrolls = 20) ∧
    (∀ (s s' : PaginationService) (u : TikTokApiPagination),
      s.updatePagination u = s'.updatePagination u) ∧
    (PaginationService.initial.updatePagination ⟨1, 45, 20⟩).getRequiredScrolls = 3 ∧
    ((PaginationService.initial.updatePagination ⟨1, 45, 20⟩).updatePagination
      ⟨2, 60, 20⟩).getRequiredScrolls = 3 ∧
    ((PaginationService.initial.updatePagination ⟨1, 45, 20⟩).updatePagination
      ⟨2, 60, 10⟩).getRequiredScrolls = 6 := by
  refine ⟨?_, ?_, ?_, by decide, by decide, by decide⟩
  · intro s h1 h2
    rw [natCeil_div_eq s.totalItems s.itemsPerPage h2]
    simp [PaginationService.getRequiredScrolls, h1, h2]
  · intro s h
    rcases h with h | h <;> simp [PaginationService.getRequiredScrolls, h]
  · intro s s' u
    rfl

theorem getRequiredScrolls_spec_witness :
    (⟨1, 45, 20⟩ : PaginationService).getRequiredScrolls =
      ⌈((⟨1, 45, 20⟩ : PaginationService).totalItems : ℚ) /
        ((⟨1, 45, 20⟩ : PaginationService).itemsPerPage : ℚ)⌉₊ :=
  getRequiredScrolls_spec.1 ⟨1, 45, 20⟩ (by decide) (by decide)

/-- C10: `getCurrentProgress` divides without the zero guard that
`getRequiredScrolls` has: whenever `itemsPerPage = 0` its `total` component is
not a well-defined number, and in the initial state it is `NaN` (`0/0`),
while `getRequiredScrolls` returns the guarded default 20 there. -/
theorem getCurrentProgress_unguarded (s : PaginationService)
    (h : s.itemsPerPage = 0) :
    (s.getCurrentProgress.2).isWellDefined = false ∧
    PaginationService.initial.getCurrentProgress.2 = JSNum.nan ∧
    PaginationService.initial.getRequiredScrolls = 20 := by
  refine ⟨?_, rfl, rfl⟩
  simp only [PaginationService.getCurrentProgress, jsCeilOfDiv, h, if_pos rfl]
  by_cases h0 : s.totalItems = 0 <;> simp [h0, JSNum.isWellDefined]

theorem getCurrentProgress_unguarded_witness :
    (PaginationService.initial.getCurrentProgress.2).isWellDefined = false ∧
    PaginationService.initial.getCurrentProgress.2 = JSNum.nan ∧
    PaginationService.initial.getRequiredScrolls = 20 :=
  getCurrentProgress_unguarded PaginationService.initial rfl

/-! ## Collection Loop (`src/steps/scrollAndCollectData.ts`)

The network-interception callback can deliver fresh pagination blocks to the
`PaginationService` while the loop is scrolling/waiting; `arrivals i` are the
updates delivered during iteration `i`. -/

/-- Apply a batch of intercepted pagination updates to the service. -/
def applyUpdates (s : PaginationService) (ps : List TikTokApiPagination) : PaginationService :=
  ps.foldl PaginationService.updatePagination s

/-- Body of the `for (let i = 0; i < requiredScrolls; i++)` loop: `r` is the
number of iterations still to run of the bound sampled before the loop.
Each iteration performs one scroll advance (a failed scroll is caught and the
loop continues, so it still consumes the iteration) and absorbs the updates
delivered meanwhile. Returns (number of scroll advances performed, final
service state). -/
def scrollLoopAux (arrivals : Nat → List TikTokApiPagination) :
    Nat → Nat → PaginationService → Nat × PaginationService
  | _, 0, s => (0, s)
  | i, r + 1, s =>
    let s' := applyUpdates s (arrivals i)
    let rest := scrollLoopAux arrivals (i + 1) r s'
    (rest.1 + 1, rest.2)

/-- `scrollAndCollectData`: the loop bound `requiredScrolls` is read from the
service once, before the first iteration (`const requiredScrolls =
paginationService.getRequiredScrolls()`). -/
def scrollAndCollectData (s : PaginationService)
    (arrivals : Nat → List TikTokApiPagination) : Nat × PaginationService :=
  scrollLoopAux arrivals 0 s.getRequiredScrolls s

/-- Modelled from the spec claim (not from the source): a loop that re-reads
`getRequiredScrolls()` before every iteration, so that the bound follows
updates that arrive mid-run. `fuel` only forces termination. -/
def rereadScrollLoop (arrivals : Nat → List TikTokApiPagination) :
    Nat → Nat → PaginationService → Nat × PaginationService
  | _, 0, s => (0, s)
  | i, fuel + 1, s =>
    if i < s.getRequiredScrolls then
      let s' := applyUpdates s (arrivals i)
      let rest := rereadScrollLoop arrivals (i + 1) fuel s'
      (rest.1 + 1, rest.2)
    else (0, s)

theorem scrollLoopAux_count (arrivals : Nat → List TikTokApiPagination) :
    ∀ (r i : Nat) (s : PaginationService), (scrollLoopAux arrivals i r s).1 = r := by
  intro r
  induction r with
  | zero => intro i s; rfl
  | succ r ih => intro i s; simp [scrollLoopAux, ih]

/-- C3 (counterexample): starting from `{page 1, total 40, size 20}` (bound 2),
an update to `total 100` delivered during the first iteration raises
`requiredAdvances()` to 5, but the loop still performs only the 2 advances
sampled before the first iteration; the re-reading loop the claim describes
would perform 5. -/
theorem scroll_bound_counterexample :
    (scrollAndCollectData (PaginationService.initial.updatePagination ⟨1, 40, 20⟩)
      (fun i => if i = 0 then [⟨2, 100, 20⟩] else [])).1 = 2 ∧
    ((scrollAndCollectData (PaginationService.initial.updatePagination ⟨1, 40, 20⟩)
      (fun i => if i = 0 then [⟨2, 100, 20⟩] else [])).2.getRequiredScrolls = 5) ∧
    (rereadScrollLoop (fun i => if i = 0 then [⟨2, 100, 20⟩] else []) 0 10
      (PaginationService.initial.updatePagination ⟨1, 40, 20⟩)).1 = 5 := by
  refine ⟨rfl, rfl, rfl⟩

/-- C3 (amended): the number of scroll advances performed equals the value of
`requiredAdvances()` sampled once before the first iteration, for every
schedule of mid-run pagination updates; updates that arrive during the run
change the tracked state but never the number of advances performed. -/
theorem scroll_bound_amended (s : PaginationService)
    (arrivals : Nat → List TikTokApiPagination) :
    (scrollAndCollectData s arrivals).1 = s.getRequiredScrolls :=
  scrollLoopAux_count arrivals s.getRequiredScrolls 0 s

/-! ## Session Continuity (`restoreSession` in `src/routes.ts`)

The browser is modelled by its cookie set, its per-origin localStorage
entries and the origin of the page currently loaded (a `page.evaluate`
clearing `localStorage` only affects the current origin). Filesystem access,
navigations and the `isLoggedIn` probe are oracles in `RestoreEnv`. -/

/-- A browser cookie (name/value; the remaining attributes play no role in
the claims). -/
structure Cookie where
  name : String
  value : String
deriving DecidableEq, Repr

/-- One origin of the serialized session snapshot with its localStorage
key/value entries (`sessionState.origins`). -/
structure OriginState where
  origin : String
  storage : List (String × String)
deriving DecidableEq, Repr

/-- The serialized `SessionState` JSON document. -/
structure SessionState where
  cookies : List Cookie
  origins : List OriginState
deriving DecidableEq, Repr

/-- Live browser state: cookies, localStorage entries as (origin, key, value),
and the origin of the currently loaded page. -/
structure BrowserState where
  cookies : List Cookie
  localStorage : List (String × String × String)
  currentOrigin : String
deriving DecidableEq, Repr

/-- `page.evaluate(() => localStorage.clear())`: clears only the entries of
the currently loaded origin. -/
def BrowserState.clearLocalForCurrentOrigin (b : BrowserState) : BrowserState :=
  { b with localStorage := b.localStorage.filter (fun e => !(e.1 == b.currentOrigin)) }

/-- `window.localStorage.setItem(key, value)` on the given origin. -/
def BrowserState.setLocalItem (b : BrowserState) (origin key value : String) : BrowserState :=
  { b with localStorage :=
      (b.localStorage.filter (fun e => !(e.1 == origin && e.2.1 == key)))
        ++ [(origin, key, value)] }

/-- Oracles for the effectful steps of `restoreSession`. -/
structure RestoreEnv where
  fileExists : Bool
  blankNavOk : Bool
  originNavOk : String → Nat → Bool
  mainNavOk : Nat → Bool
  loggedIn : Nat → Bool

/-- The target-application URL navigated to by the verification loop. -/
def tiktokMainUrl : String :=
  "https://ads.tiktok.com/business/creativecenter/inspiration/topads/pc/en"

/-- LocalStorage replay for one origin: up to 3 navigation retries; on the
first successful retry the entries are written; if all 3 fail the origin is
skipped (the failure is only logged). -/
def replayOrigin (env : RestoreEnv) (b : BrowserState) (o : OriginState) : BrowserState :=
  match (List.range 3).find? (fun k => env.originNavOk o.origin k) with
  | some _ =>
    o.storage.foldl (fun bb kv => bb.setLocalItem o.origin kv.1 kv.2)
      { b with currentOrigin := o.origin }
  | none => b

/-- Outcome of the 3-attempt navigation/`isLoggedIn` loop of `restoreSession`. -/
inductive MainNavResult where
  | authenticated (b : BrowserState) (attempt : Nat)
  | authFailed (b : BrowserState)
  | navError (b : BrowserState)

/-- The `for (let i = 0; i < 3; i++)` navigation loop: a navigation failure on
the last attempt is re-thrown (`if (i === 2) throw error`); a successful
navigation runs the `isLoggedIn` check for that attempt. -/
def mainNavLoop (env : RestoreEnv) (b : BrowserState) : List Nat → MainNavResult
  | [] => .authFailed b
  | i :: rest =>
    if env.mainNavOk i then
      let b' := { b with currentOrigin := tiktokMainUrl }
      if env.loggedIn i then .authenticated b' i
      else mainNavLoop env b' rest
    else if rest.isEmpty then .navError b
    else mainNavLoop env b rest

/-- Result of `restoreSession`: the returned boolean, the final browser
state, and whether the verified state was persisted back to the session
file. -/
structure RestoreOutcome where
  success : Bool
  browser : BrowserState
  sessionSaved : Bool
deriving Repr

/-- The inner catch of `restoreSession`: `clearCookies()` plus a
`page.evaluate` clearing local/session storage of the current origin. -/
def clearOnError (b : BrowserState) : BrowserState :=
  ({ b with cookies := [] }).clearLocalForCurrentOrigin

/-- Tail of `restoreSession` from the cookie-state verification on: the
`storageState()` cookie check (throwing into the inner catch when the cookie
set is empty), the 3-attempt navigation/`isLoggedIn` loop, and the three exits.
On `authFailed` (`if (!loginSuccess) return false`) nothing is cleared. -/
def restoreVerify (env : RestoreEnv) (session : SessionState) (b4 : BrowserState) :
    RestoreOutcome :=
  if session.cookies.isEmpty then
    { success := false, browser := clearOnError b4, sessionSaved := false }
  else
    match mainNavLoop env b4 [0, 1, 2] with
    | .authenticated b5 _ => { success := true, browser := b5, sessionSaved := true }
    | .authFailed b5 => { success := false, browser := b5, sessionSaved := false }
    | .navError b5 => { success := false, browser := clearOnError b5, sessionSaved := false }

/-- `restoreSession(page, sessionPath, log)` of `src/routes.ts`, for a valid
serialized `SessionState` (so `JSON.parse` and `addCookies` succeed): clear
cookies and current-origin storage, install the snapshot cookies, navigate to
`about:blank`, replay localStorage per origin, then verify. -/
def restoreSession (env : RestoreEnv) (session : SessionState) (b0 : BrowserState) :
    RestoreOutcome :=
  if !env.fileExists then
    { success := false, browser := b0, sessionSaved := false }
  else
    let b1 := ({ b0 with cookies := [] }).clearLocalForCurrentOrigin
    let b2 := { b1 with cookies := session.cookies }
    let b3 := if env.blankNavOk then { b2 with currentOrigin := "about:blank" } else b2
    restoreVerify env session (session.origins.foldl (replayOrigin env) b3)

theorem setLocal_foldl_cookies (origin : String) (l : List (String × String)) :
    ∀ bb : BrowserState,
      (l.foldl (fun x kv => x.setLocalItem origin kv.1 kv.2) bb).cookies = bb.cookies := by
  induction l with
  | nil => intro bb; rfl
  | cons kv l ih => intro bb; rw [List.foldl_cons, ih]; rfl

theorem replayOrigin_cookies (env : RestoreEnv) (b : BrowserState) (o : OriginState) :
    (replayOrigin env b o).cookies = b.cookies := by
  unfold replayOrigin
  cases (List.range 3).find? (fun k => env.originNavOk o.origin k) with
  | none => rfl
  | some k => exact setLocal_foldl_cookies o.origin o.storage _

theorem replayAll_cookies (env : RestoreEnv) (os : List OriginState) :
    ∀ b : BrowserState, (os.foldl (replayOrigin env) b).cookies = b.cookies := by
  induction os with
  | nil => intro b; rfl
  | cons o os ih => intro b; rw [List.foldl_cons, ih, replayOrigin_cookies]

theorem mainNavLoop_authenticated (env : RestoreEnv) (l : List Nat) :
    ∀ (b b' : BrowserState) (i : Nat),
      mainNavLoop env b l = .authenticated b' i →
      i ∈ l ∧ env.mainNavOk i = true ∧ env.loggedIn i = true ∧ b'.cookies = b.cookies := by
  induction l with
  | nil => intro b b' i h; exact absurd h (by simp [mainNavLoop])
  | cons j rest ih =>
    intro b b' i h
    rw [mainNavLoop] at h
    by_cases hnav : env.mainNavOk j
    · rw [if_pos hnav] at h
      by_cases hlog : env.loggedIn j
      · rw [if_pos hlog] at h
        cases h
        exact ⟨by simp, hnav, hlog, rfl⟩
      · rw [if_neg hlog] at h
        obtain ⟨hm, h1, h2, h3⟩ := ih _ _ _ h
        exact ⟨by simp [hm], h1, h2, h3⟩
    · rw [if_neg hnav] at h
      by_cases hre : rest.isEmpty
      · rw [if_pos hre] at h; cases h
      · rw [if_neg hre] at h
        obtain ⟨hm, h1, h2, h3⟩ := ih _ _ _ h
        exact ⟨by simp [hm], h1, h2, h3⟩

theorem mainNavLoop_cookies (env : RestoreEnv) (l : List Nat) :
    ∀ b : BrowserState,
      (∀ b', mainNavLoop env b l = .authFailed b' → b'.cookies = b.cookies) ∧
      (∀ b', mainNavLoop env b l = .navError b' → b'.cookies = b.cookies) := by
  induction l with
  | nil =>
    intro b
    constructor
    · intro b' h; rw [mainNavLoop] at h; cases h; rfl
    · intro b' h; exact absurd h (by simp [mainNavLoop])
  | cons j rest ih =>
    intro b
    constructor <;> intro b' h <;> rw [mainNavLoop] at h <;>
      by_cases hnav : env.mainNavOk j
    · rw [if_pos hnav] at h
      by_cases hlog : env.loggedIn j
      · rw [if_pos hlog] at h; cases h
      · rw [if_neg hlog] at h
        exact (ih { b with currentOrigin := tiktokMainUrl }).1 _ h
    · rw [if_neg hnav] at h
      by_cases hre : rest.isEmpty
      · rw [if_pos hre] at h; cases h
      · rw [if_neg hre] at h; exact (ih b).1 _ h
    · rw [if_pos hnav] at h
      by_cases hlog : env.loggedIn j
      · rw [if_pos hlog] at h; cases h
      · rw [if_neg hlog] at h
        exact (ih { b with currentOrigin := tiktokMainUrl }).2 _ h
    · rw [if_neg hnav] at h
      by_cases hre : rest.isEmpty
      · rw [if_pos hre] at h; cases h; rfl
      · rw [if_neg hre] at h; exact (ih b).2 _ h

theorem clearOnError_cookies (b : BrowserState) : (clearOnError b).cookies = [] := rfl

theorem restoreVerify_spec (env : RestoreEnv) (session : SessionState)
    (b4 : BrowserState) (hcook : b4.cookies = session.cookies) :
    ((restoreVerify env session b4).success = true →
      (restoreVerify env session b4).sessionSaved = true ∧
      ∃ i, i < 3 ∧ env.mainNavOk i = true ∧ env.loggedIn i = true) ∧
    ((restoreVerify env session b4).success = false →
      (restoreVerify env session b4).sessionSaved = false ∧
      ((restoreVerify env session b4).browser.cookies = [] ∨
       (restoreVerify env session b4).browser.cookies = session.cookies)) := by
  unfold restoreVerify
  by_cases hemp : session.cookies.isEmpty
  · rw [if_pos hemp]
    exact ⟨by simp, fun _ => ⟨rfl, Or.inl rfl⟩⟩
  · rw [if_neg hemp]
    cases hnav : mainNavLoop env b4 [0, 1, 2] with
    | authenticated b5 i =>
      obtain ⟨hm, h1, h2, _⟩ := mainNavLoop_authenticated env [0, 1, 2] b4 b5 i hnav
      have hi : i < 3 := by fin_cases hm <;> omega
      exact ⟨fun _ => ⟨rfl, ⟨i, hi, h1, h2⟩⟩, by simp⟩
    | authFailed b5 =>
      have hc := (mainNavLoop_cookies env [0, 1, 2] b4).1 b5 hnav
      exact ⟨by simp, fun _ => ⟨rfl, Or.inr (hc.trans hcook)⟩⟩
    | navError b5 =>
      exact ⟨by simp, fun _ => ⟨rfl, Or.inl rfl⟩⟩

/-- C1 (amended): for every valid serialized `SessionState`, `restoreSession`
either returns true — the live `isLoggedIn` check succeeded on some attempt
and the verified state was persisted back — or returns false without
persisting, and then the browser is either untouched (no session file),
cleared of cookies (the inner-catch error path), or — on the path where
cookies were installed but the live authentication check failed — still holds
the installed snapshot cookies: that path performs no cleanup. -/
theorem restoreSession_characterized (env : RestoreEnv) (session : SessionState)
    (b0 : BrowserState) :
    ((restoreSession env session b0).success = true →
      (restoreSession env session b0).sessionSaved = true ∧
      ∃ i, i < 3 ∧ env.mainNavOk i = true ∧ env.loggedIn i = true) ∧
    ((restoreSession env session b0).success = false →
      (restoreSession env session b0).sessionSaved = false ∧
      ((restoreSession env session b0).browser = b0 ∨
       (restoreSession env session b0).browser.cookies = [] ∨
       (restoreSession env session b0).browser.cookies = session.cookies)) := by
  by_cases hf : env.fileExists
  · have hun : restoreSession env session b0 =
        restoreVerify env session
          (session.origins.foldl (replayOrigin env)
            (if env.blankNavOk then
              { ({ b0 with cookies := [] }).clearLocalForCurrentOrigin with
                  cookies := session.cookies, currentOrigin := "about:blank" }
             else
              { ({ b0 with cookies := [] }).clearLocalForCurrentOrigin with
                  cookies := session.cookies })) := by
      unfold restoreSession
      rw [if_neg (by simp [hf])]
    rw [hun]
    have hcook : (session.origins.foldl (replayOrigin env)
        (if env.blankNavOk then
          { ({ b0 with cookies := [] }).clearLocalForCurrentOrigin with
              cookies := session.cookies, currentOrigin := "about:blank" }
         else
          { ({ b0 with cookies := [] }).clearLocalForCurrentOrigin with
              cookies := session.cookies })).cookies = session.cookies := by
      rw [replayAll_cookies]
      cases env.blankNavOk <;> rfl
    obtain ⟨hA, hB⟩ := restoreVerify_spec env session _ hcook
    exact ⟨hA, fun h => ⟨(hB h).1, Or.inr (hB h).2⟩⟩
  · have hun : restoreSession env session b0 =
        { success := false, browser := b0, sessionSaved := false } := by
      unfold restoreSession
      rw [if_pos (by revert hf; cases env.fileExists <;> simp)]
    rw [hun]
    exact ⟨by simp, fun _ => ⟨rfl, Or.inl rfl⟩⟩

/-- Oracle for the C1 counterexample: the session file exists, every
navigation succeeds, but the live `isLoggedIn` check fails on all 3
attempts. -/
def restoreEnvEx : RestoreEnv :=
  { fileExists := true
    blankNavOk := true
    originNavOk := fun _ _ => true
    mainNavOk := fun _ => true
    loggedIn := fun _ => false }

/-- A valid snapshot with one cookie and one origin holding one localStorage
entry. -/
def sessionEx : SessionState :=
  { cookies := [⟨"sessionid", "abc123"⟩]
    origins := [⟨"https://www.tiktok.com", [("user_token", "xyz")]⟩] }

/-- A fresh browser context. -/
def browserEx : BrowserState :=
  { cookies := [], localStorage := [], currentOrigin := "initial" }

/-- C1 (counterexample): on the path where the snapshot cookies were
installed and replayed but the live authentication check failed,
`restoreSession` returns false yet leaves the installed cookie and the
replayed localStorage entry in the browser — not the claimed zero
cookies / zero local-storage entries. -/
theorem restore_partial_state_counterexample :
    (restoreSession restoreEnvEx sessionEx browserEx).success = false ∧
    (restoreSession restoreEnvEx sessionEx browserEx).browser.cookies =
      [⟨"sessionid", "abc123"⟩] ∧
    (restoreSession restoreEnvEx sessionEx browserEx).browser.localStorage =
      [("https://www.tiktok.com", "user_token", "xyz")] := by
  decide

theorem restoreSession_characterized_witness :
    (restoreSession restoreEnvEx sessionEx browserEx).sessionSaved = false ∧
    ((restoreSession restoreEnvEx sessionEx browserEx).browser = browserEx ∨
     (restoreSession restoreEnvEx sessionEx browserEx).browser.cookies = [] ∨
     (restoreSession restoreEnvEx sessionEx browserEx).browser.cookies =
       sessionEx.cookies) :=
  (restoreSession_characterized restoreEnvEx sessionEx browserEx).2 (by decide)

/-! ## Interception & Persistence Pipeline
(`src/helpers/setupRequestInterception.ts` + `PrismaDatabase`)

The Prisma store is modelled by its four tables; `prisma.*.create` appends a
row and fails on a primary-key/unique conflict, with no surrounding
transaction (earlier writes of the same `insertAd` call persist). The scalar
metadata block of a material (ad_title, cost, ctr, …) is collapsed into one
opaque `metaJson` field; none of the claims inspect it. -/

/-- Video URL block of an intercepted material (`video_info.video_url['720p']`). -/
structure VideoUrlSrc where
  p720 : String
deriving DecidableEq, Repr

/-- Video info block of an intercepted material. -/
structure VideoInfoSrc where
  vid : String
  duration : Nat
  cover : String
  width : Nat
  height : Nat
  video_url : VideoUrlSrc
deriving DecidableEq, Repr

/-- One record of an intercepted list-endpoint payload (`TikTokAdMaterial`). -/
structure TikTokAdMaterial where
  id : String
  brand_name : String
  metaJson : String
  video_info : Option VideoInfoSrc
deriving DecidableEq, Repr

/-- Video URL of the storage model (`AdData.videoInfo.videoUrl`). -/
structure AdVideoUrl where
  p720 : String
deriving DecidableEq, Repr

/-- Video info of the storage model (`AdData.videoInfo`). -/
structure AdVideoInfo where
  vid : String
  duration : Nat
  cover : String
  width : Nat
  height : Nat
  videoUrl : Option AdVideoUrl
deriving DecidableEq, Repr

/-- The storage model `AdData`. -/
structure AdData where
  id : String
  countryCode : String
  creativeId : String
  advertiserId : String
  advertiserName : String
  metadata : String
  videoInfo : Option AdVideoInfo
deriving DecidableEq, Repr

/-- `mapToAdData` of `setupRequestInterception.ts`: the material id doubles as
`creativeId`, `brand_name` doubles as advertiser id and name. -/
def mapToAdData (material : TikTokAdMaterial) (countryCode : String) : AdData :=
  { id := material.id
    countryCode := countryCode
    creativeId := material.id
    advertiserId := material.brand_name
    advertiserName := material.brand_name
    metadata := material.metaJson
    videoInfo := material.video_info.map fun v =>
      { vid := v.vid, duration := v.duration, cover := v.cover
        width := v.width, height := v.height
        videoUrl := some { p720 := v.video_url.p720 } } }

/-- A row of the `ads` table. -/
structure AdRow where
  id : String
  countryCode : String
  creativeId : String
  advertiserId : String
  advertiserName : String
  metadata : String
  videoInfoId : Option String
deriving DecidableEq, Repr

/-- The `ads` row written for an `AdData`. -/
def adRowOf (d : AdData) : AdRow :=
  { id := d.id
    countryCode := d.countryCode
    creativeId := d.creativeId
    advertiserId := d.advertiserId
    advertiserName := d.advertiserName
    metadata := d.metadata
    videoInfoId := d.videoInfo.map (fun v => v.vid) }

/-- The four tables reached by `PrismaDatabase`: `ads`, `processed_items`
(item keys), `video_info` (vids) and `video_urls` as (videoInfoId, p720). -/
structure PrismaStore where
  ads : List AdRow
  processedItems : List String
  videoInfos : List String
  videoUrls : List (String × String)
deriving DecidableEq, Repr

/-- The empty store. -/
def PrismaStore.empty : PrismaStore := ⟨[], [], [], []⟩

/-- `Partial<AdData>` as consumed by `PrismaDatabase.exists`. -/
structure AdCriteria where
  id : Option String := none
  creativeId : Option String := none
  advertiserId : Option String := none
  countryCode : Option String := none
deriving DecidableEq, Repr

/-- JS truthiness of an optional string field: absent and empty are falsy. -/
def truthyStr : Option String → Bool
  | none => false
  | some s => !(s == "")

/-- The `where` object built by `PrismaDatabase.exists`: a field enters the
filter only when the criteria field is truthy. -/
def buildWhere (c : AdCriteria) : AdCriteria :=
  { id := if truthyStr c.id then c.id else none
    creativeId := if truthyStr c.creativeId then c.creativeId else none
    advertiserId := if truthyStr c.advertiserId then c.advertiserId else none
    countryCode := if truthyStr c.countryCode then c.countryCode else none }

/-- Whether an `ads` row matches a `where` object (conjunction of the
present fields). -/
def matchesWhere (w : AdCriteria) (a : AdRow) : Bool :=
  (match w.id with | none => true | some v => a.id == v) &&
  (match w.creativeId with | none => true | some v => a.creativeId == v) &&
  (match w.advertiserId with | none => true | some v => a.advertiserId == v) &&
  (match w.countryCode with | none => true | some v => a.countryCode == v)

/-- `prisma.ad.count({ where })`. -/
def PrismaStore.adCount (st : PrismaStore) (w : AdCriteria) : Nat :=
  (st.ads.filter (matchesWhere w)).length

/-- `PrismaDatabase.exists(criteria)`: `count > 0`. -/
def prismaExists (st : PrismaStore) (c : AdCriteria) : Bool :=
  !(st.adCount (buildWhere c) == 0)

/-- `PrismaDatabase.isDuplicate(data)`: `exists({id, creativeId})`. -/
def prismaIsDuplicate (st : PrismaStore) (d : AdData) : Bool :=
  prismaExists st { id := some d.id, creativeId := some d.creativeId }

/-- `PrismaDatabase.insertAd(data)`: video-info step (guarded by a
`findUnique`, so it cannot conflict), then `ad.create` (fails on a duplicate
primary key `id`), then `processedItem.create` (fails on a duplicate
`itemKey`). There is no transaction: on a late failure the earlier creates
remain. Returns the resulting store and whether the call succeeded.
`prismaVideoStep` is the video-info part: create the `video_info` row (with
its nested `video_urls` row) only when no row with that `vid` exists yet. -/
def prismaVideoStep (st : PrismaStore) (d : AdData) : PrismaStore :=
  match d.videoInfo with
  | none => st
  | some v =>
    if st.videoInfos.contains v.vid then st
    else
      { st with
          videoInfos := st.videoInfos ++ [v.vid]
          videoUrls := st.videoUrls ++
            (match v.videoUrl with
             | some u => [(v.vid, u.p720)]
             | none => []) }

def prismaInsertAd (st : PrismaStore) (d : AdData) : PrismaStore × Bool :=
  let st1 := prismaVideoStep st d
  if st1.ads.any (fun a => a.id == d.id) then (st1, false)
  else
    let st2 := { st1 with ads := st1.ads ++ [adRowOf d] }
    if st2.processedItems.contains d.id then (st2, false)
    else ({ st2 with processedItems := st2.processedItems ++ [d.id] }, true)

/-- Per-material body of the interception handler: check `isDuplicate`, and
only if absent call `insertAd` (whose own failure is caught by the
per-material catch). Returns the new store and the ids for which `insertAd`
was invoked. -/
def processMaterial (st : PrismaStore) (m : TikTokAdMaterial) (countryCode : String) :
    PrismaStore × List String :=
  let adData := mapToAdData m countryCode
  if prismaIsDuplicate st adData then (st, [])
  else ((prismaInsertAd st adData).1, [adData.id])

/-- The `for (const material of responseBody.data.materials)` loop. -/
def processMaterials (st : PrismaStore) (ms : List TikTokAdMaterial) (countryCode : String) :
    PrismaStore × List String :=
  match ms with
  | [] => (st, [])
  | m :: rest =>
    let r1 := processMaterial st m countryCode
    let r2 := processMaterials r1.1 rest countryCode
    (r2.1, r1.2 ++ r2.2)

/-- Store invariant maintained by the pipeline: ad ids are unique, every ad
row carries `creativeId = id` (the pipeline always writes them equal), every
processed-item key belongs to some ad row, and every video-url row points at
an existing video-info row. -/
def storeInv (st : PrismaStore) : Prop :=
  (st.ads.map AdRow.id).Nodup ∧
  (∀ a ∈ st.ads, a.creativeId = a.id) ∧
  (∀ k ∈ st.processedItems, ∃ a ∈ st.ads, a.id = k) ∧
  (∀ p ∈ st.videoUrls, p.1 ∈ st.videoInfos)

/-- An ad row recording material `m` (same id and creativeId) is present. -/
def hasAd (st : PrismaStore) (m : TikTokAdMaterial) : Bool :=
  st.ads.any (fun a => a.id == m.id && a.creativeId == m.id)

/-- An ad row with the given id is present. -/
def hasAdId (st : PrismaStore) (k : String) : Bool :=
  st.ads.any (fun a => a.id == k)

theorem length_filter_bne_zero {α : Type} (p : α → Bool) (l : List α) :
    (!(List.length (List.filter p l) == 0)) = l.any p := by
  induction l with
  | nil => rfl
  | cons a l ih => cases h : p a <;> simp [List.filter_cons, List.any_cons, h, ih]

theorem prismaExists_eq_any (st : PrismaStore) (c : AdCriteria) :
    prismaExists st c = st.ads.any (matchesWhere (buildWhere c)) := by
  unfold prismaExists PrismaStore.adCount
  exact length_filter_bne_zero _ _

theorem prismaIsDuplicate_eq_any (st : PrismaStore) (d : AdData)
    (hid : d.id ≠ "") (hcid : d.creativeId ≠ "") :
    prismaIsDuplicate st d =
      st.ads.any (fun a => a.id == d.id && a.creativeId == d.creativeId) := by
  unfold prismaIsDuplicate
  rw [prismaExists_eq_any]
  congr 1
  funext a
  have h1 : (d.id == "") = false := by simp [hid]
  have h2 : (d.creativeId == "") = false := by simp [hcid]
  simp [buildWhere, truthyStr, matchesWhere, h1, h2]

theorem prismaIsDuplicate_mapped (st : PrismaStore) (m : TikTokAdMaterial)
    (cc : String) (hid : m.id ≠ "") :
    prismaIsDuplicate st (mapToAdData m cc) = hasAd st m := by
  rw [prismaIsDuplicate_eq_any st (mapToAdData m cc) hid hid]
  rfl

theorem prismaVideoStep_ads (st : PrismaStore) (d : AdData) :
    (prismaVideoStep st d).ads = st.ads := by
  unfold prismaVideoStep
  cases d.videoInfo with
  | none => rfl
  | some v => dsimp only; split <;> rfl

theorem prismaVideoStep_processed (st : PrismaStore) (d : AdData) :
    (prismaVideoStep st d).processedItems = st.processedItems := by
  unfold prismaVideoStep
  cases d.videoInfo with
  | none => rfl
  | some v => dsimp only; split <;> rfl

theorem prismaVideoStep_inv (st : PrismaStore) (d : AdData) (hinv : storeInv st) :
    storeInv (prismaVideoStep st d) := by
  obtain ⟨h1, h2, h3, h4⟩ := hinv
  unfold prismaVideoStep
  cases d.videoInfo with
  | none => exact ⟨h1, h2, h3, h4⟩
  | some v =>
    dsimp only
    split
    · exact ⟨h1, h2, h3, h4⟩
    · refine ⟨h1, h2, h3, ?_⟩
      intro p hp
      simp only [List.mem_append] at hp
      rcases hp with hp | hp
      · exact List.mem_append_left _ (h4 p hp)
      · cases hu : v.videoUrl with
        | none => rw [hu] at hp; cases hp
        | some u =>
          rw [hu] at hp
          simp only [List.mem_singleton] at hp
          subst hp
          exact List.mem_append_right _ (by simp)

theorem prismaInsertAd_fresh (st : PrismaStore) (d : AdData)
    (hfresh : ∀ a ∈ st.ads, a.id ≠ d.id)
    (hproc : d.id ∉ st.processedItems) :
    (prismaInsertAd st d).1.ads = st.ads ++ [adRowOf d] ∧
    (prismaInsertAd st d).1.processedItems = st.processedItems ++ [d.id] ∧
    (prismaInsertAd st d).2 = true ∧
    (prismaInsertAd st d).1.videoInfos = (prismaVideoStep st d).videoInfos ∧
    (prismaInsertAd st d).1.videoUrls = (prismaVideoStep st d).videoUrls := by
  have hany : (st.ads.any fun a => a.id == d.id) = false := by
    simp only [List.any_eq_false]
    intro a ha
    simp [hfresh a ha]
  have hcont : st.processedItems.contains d.id = false := by
    simpa using hproc
  simp [prismaInsertAd, prismaVideoStep_ads, prismaVideoStep_processed, hany, hcont, hproc]

theorem hasAdId_mono (s1 s2 : PrismaStore) (k : String)
    (hgrow : ∀ a ∈ s1.ads, a ∈ s2.ads) :
    hasAdId s1 k = true → hasAdId s2 k = true := by
  simp only [hasAdId, List.any_eq_true]
  rintro ⟨a, ha, hk⟩
  exact ⟨a, hgrow a ha, hk⟩

theorem hasAd_mono (s1 s2 : PrismaStore) (m : TikTokAdMaterial)
    (hgrow : ∀ a ∈ s1.ads, a ∈ s2.ads) :
    hasAd s1 m = true → hasAd s2 m = true := by
  simp only [hasAd, List.any_eq_true]
  rintro ⟨a, ha, hk⟩
  exact ⟨a, hgrow a ha, hk⟩

theorem processMaterial_spec (st : PrismaStore) (m : TikTokAdMaterial) (cc : String)
    (hinv : storeInv st) (hid : m.id ≠ "") :
    storeInv (processMaterial st m cc).1 ∧
    (∀ a ∈ st.ads, a ∈ (processMaterial st m cc).1.ads) ∧
    hasAd (processMaterial st m cc).1 m = true ∧
    (∀ k ∈ (processMaterial st m cc).2,
      hasAdId st k = false ∧ hasAdId (processMaterial st m cc).1 k = true) := by
  by_cases hdup : prismaIsDuplicate st (mapToAdData m cc) = true
  · have hres : processMaterial st m cc = (st, []) := by
      unfold processMaterial
      rw [if_pos hdup]
    rw [hres]
    refine ⟨hinv, fun a ha => ha, ?_, by simp⟩
    rw [← prismaIsDuplicate_mapped st m cc hid]
    exact hdup
  · have hnd : hasAd st m = false := by
      rw [← prismaIsDuplicate_mapped st m cc hid]
      exact Bool.not_eq_true _ ▸ (Bool.eq_false_iff.mpr hdup)
    have hfresh : ∀ a ∈ st.ads, a.id ≠ (mapToAdData m cc).id := by
      intro a ha heq
      have hc : a.creativeId = a.id := hinv.2.1 a ha
      have : hasAd st m = true := by
        simp only [hasAd, List.any_eq_true]
        refine ⟨a, ha, ?_⟩
        have hidm : a.id = m.id := heq
        simp [hidm, hc]
      rw [this] at hnd
      cases hnd
    have hproc : (mapToAdData m cc).id ∉ st.processedItems := by
      intro hk
      obtain ⟨a, ha, hak⟩ := hinv.2.2.1 _ hk
      exact hfresh a ha hak
    obtain ⟨hads, hpi, _, hvi, hvu⟩ :=
      prismaInsertAd_fresh st (mapToAdData m cc) hfresh hproc
    have hres : processMaterial st m cc =
        ((prismaInsertAd st (mapToAdData m cc)).1, [(mapToAdData m cc).id]) := by
      unfold processMaterial
      rw [if_neg hdup]
    rw [hres]
    obtain ⟨h1, h2, h3, h4⟩ := prismaVideoStep_inv st (mapToAdData m cc) hinv
    rw [prismaVideoStep_ads] at h1 h2
    rw [prismaVideoStep_ads, prismaVideoStep_processed] at h3
    refine ⟨⟨?_, ?_, ?_, ?_⟩, ?_, ?_, ?_⟩
    · rw [hads, List.map_append]
      refine List.Nodup.append h1 (List.nodup_singleton _) ?_
      intro x hx hx'
      simp only [List.map_cons, List.map_nil, List.mem_singleton] at hx'
      subst hx'
      obtain ⟨a, ha, hax⟩ := List.mem_map.mp hx
      exact hfresh a ha hax
    · intro a ha
      rw [hads] at ha
      rcases List.mem_append.mp ha with ha | ha
      · exact h2 a ha
      · simp only [List.mem_singleton] at ha
        subst ha
        rfl
    · intro k hk
      rw [hpi] at hk
      rw [hads]
      rcases List.mem_append.mp hk with hk | hk
      · obtain ⟨a, ha, hak⟩ := h3 k hk
        exact ⟨a, List.mem_append_left _ ha, hak⟩
      · simp only [List.mem_singleton] at hk
        subst hk
        refine ⟨adRowOf (mapToAdData m cc), List.mem_append_right _ (by simp), ?_⟩
        simp [adRowOf]
    · intro p hp
      rw [hvu] at hp
      rw [hvi]
      exact h4 p hp
    · intro a ha
      rw [hads]
      exact List.mem_append_left _ ha
    · simp only [hasAd, List.any_eq_true]
      refine ⟨adRowOf (mapToAdData m cc), ?_, ?_⟩
      · rw [hads]
        exact List.mem_append_right _ (by simp)
      · simp [adRowOf, mapToAdData]
    · intro k hk
      simp only [List.mem_singleton] at hk
      subst hk
      constructor
      · simp only [hasAdId, List.any_eq_false]
        intro a ha
        simp [hfresh a ha]
      · simp only [hasAdId, List.any_eq_true]
        refine ⟨adRowOf (mapToAdData m cc), ?_, ?_⟩
        · rw [hads]
          exact List.mem_append_right _ (by simp)
        · simp [adRowOf]

theorem processMaterials_spec (cc : String) :
    ∀ (ms : List TikTokAdMaterial) (st : PrismaStore),
      storeInv st → (∀ m ∈ ms, m.id ≠ "") →
      storeInv (processMaterials st ms cc).1 ∧
      (∀ a ∈ st.ads, a ∈ (processMaterials st ms cc).1.ads) ∧
      (∀ m ∈ ms, hasAd (processMaterials st ms cc).1 m = true) ∧
      (processMaterials st ms cc).2.Nodup ∧
      (∀ k ∈ (processMaterials st ms cc).2, hasAdId st k = false) := by
  intro ms
  induction ms with
  | nil =>
    intro st hinv _
    exact ⟨hinv, fun a ha => ha, by simp, List.nodup_nil, by simp [processMaterials]⟩
  | cons m rest ih =>
    intro st hinv hids
    have hid : m.id ≠ "" := hids m (by simp)
    obtain ⟨sinv, sgrow, shas, scalls⟩ := processMaterial_spec st m cc hinv hid
    obtain ⟨rinv, rgrow, rhas, rnodup, rfresh⟩ :=
      ih (processMaterial st m cc).1 sinv (fun v hv => hids v (by simp [hv]))
    have hres : processMaterials st (m :: rest) cc =
        ((processMaterials (processMaterial st m cc).1 rest cc).1,
         (processMaterial st m cc).2 ++
           (processMaterials (processMaterial st m cc).1 rest cc).2) := rfl
    rw [hres]
    refine ⟨rinv, ?_, ?_, ?_, ?_⟩
    · intro a ha
      exact rgrow a (sgrow a ha)
    · intro v hv
      rcases List.mem_cons.mp hv with hv | hv
      · subst hv
        exact hasAd_mono _ _ v rgrow shas
      · exact rhas v hv
    · by_cases hdup : prismaIsDuplicate st (mapToAdData m cc) = true
      · have h0 : (processMaterial st m cc).2 = [] := by
          unfold processMaterial
          rw [if_pos hdup]
        rw [h0, List.nil_append]
        exact rnodup
      · have h0 : (processMaterial st m cc).2 = [(mapToAdData m cc).id] := by
          unfold processMaterial
          rw [if_neg hdup]
        have hkid : hasAdId (processMaterial st m cc).1 (mapToAdData m cc).id = true :=
          (scalls _ (by rw [h0]; simp)).2
        rw [h0, List.singleton_append, List.nodup_cons]
        refine ⟨?_, rnodup⟩
        intro hkmem
        have hfr := rfresh _ hkmem
        rw [hfr] at hkid
        cases hkid
    · intro k hk
      rcases List.mem_append.mp hk with hk | hk
      · exact (scalls k hk).1
      · have hfr := rfresh k hk
        by_cases hst : hasAdId st k = true
        · have := hasAdId_mono st (processMaterial st m cc).1 k sgrow hst
          rw [hfr] at this
          cases this
        · exact Bool.eq_false_iff.mpr hst

theorem processMaterials_allPresent (cc : String) :
    ∀ (ms : List TikTokAdMaterial) (st : PrismaStore),
      (∀ m ∈ ms, m.id ≠ "") → (∀ m ∈ ms, hasAd st m = true) →
      processMaterials st ms cc = (st, []) := by
  intro ms
  induction ms with
  | nil => intro st _ _; rfl
  | cons m rest ih =>
    intro st hids hhas
    have hdup : prismaIsDuplicate st (mapToAdData m cc) = true := by
      rw [prismaIsDuplicate_mapped st m cc (hids m (by simp))]
      exact hhas m (by simp)
    have hstep : processMaterial st m cc = (st, []) := by
      unfold processMaterial
      rw [if_pos hdup]
    have hrest := ih st (fun v hv => hids v (by simp [hv])) (fun v hv => hhas v (by simp [hv]))
    show ((processMaterials (processMaterial st m cc).1 rest cc).1,
      (processMaterial st m cc).2 ++ (processMaterials (processMaterial st m cc).1 rest cc).2)
        = (st, [])
    rw [hstep]
    simpa using hrest

/-- C2: under the pipeline store invariant (unique ad ids, `creativeId = id`
on every row, markers only for stored rows) and nonempty record ids, running
the per-material persistence loop twice over the same decoded payload leaves
the store exactly as after the first run and performs zero `insertAd` calls
on the second pass — every material hits the `isDuplicate` short-circuit —
and within the first pass `insertAd` is invoked at most once per record id. -/
theorem pipeline_idempotent (st : PrismaStore) (ms : List TikTokAdMaterial)
    (cc : String) (hinv : storeInv st) (hids : ∀ m ∈ ms, m.id ≠ "") :
    processMaterials (processMaterials st ms cc).1 ms cc =
      ((processMaterials st ms cc).1, []) ∧
    (processMaterials st ms cc).2.Nodup := by
  obtain ⟨hinv1, _, hpresent, hnodup, _⟩ := processMaterials_spec cc ms st hinv hids
  exact ⟨processMaterials_allPresent cc ms _ hids hpresent, hnodup⟩

theorem pipeline_idempotent_witness :
    processMaterials
      (processMaterials PrismaStore.empty [⟨"ad1", "brand", "meta", none⟩] "US").1
      [⟨"ad1", "brand", "meta", none⟩] "US" =
      ((processMaterials PrismaStore.empty [⟨"ad1", "brand", "meta", none⟩] "US").1, []) ∧
    (processMaterials PrismaStore.empty [⟨"ad1", "brand", "meta", none⟩] "US").2.Nodup :=
  pipeline_idempotent PrismaStore.empty [⟨"ad1", "brand", "meta", none⟩] "US"
    (by refine ⟨by simp [PrismaStore.empty], by simp [PrismaStore.empty], by simp [PrismaStore.empty], by simp [PrismaStore.empty]⟩)
    (by decide)

/-! ## Interception route handler (`page.route` callback)

Effect trace of one invocation of the interception callback for a matched
response: the oracles say whether `route.fetch()` + `response.json()`
succeed, whether the `fs.writeFileSync` audit write succeeds, and whether the
`onResponse` pagination callback succeeds. Per-material persistence errors
are caught by the per-material `try/catch` (reflected in `processMaterial`),
so only these three steps can reach the outer catch. -/

/-- Observable effects of the interception callback. -/
inductive RouteEffect where
  | fetch
  | writeFile
  | insertAd (id : String)
  | callback
  | continueRoute
deriving DecidableEq, Repr

/-- Failure oracles for the non-per-material steps of the handler. -/
structure RouteEnv where
  fetchOk : Bool
  writeOk : Bool
  callbackOk : Bool

/-- The `page.route('**/creative_radar_api/v1/top_ads/v2/list**', ...)`
callback: on any thrown step the outer catch logs and still calls
`route.continue()`; on the success path `route.continue()` is the last step.
A failing `onResponse` callback reaches the outer catch, which produces the
same effect trace as the success path (the remaining step was only a log). -/
def routeHandler (env : RouteEnv) (st : PrismaStore) (ms : List TikTokAdMaterial)
    (cc : String) : List RouteEffect × PrismaStore :=
  if !env.fetchOk then
    ([RouteEffect.fetch, RouteEffect.continueRoute], st)
  else if !env.writeOk then
    ([RouteEffect.fetch, RouteEffect.writeFile, RouteEffect.continueRoute], st)
  else
    let r := processMaterials st ms cc
    if env.callbackOk then
      ([RouteEffect.fetch, RouteEffect.writeFile] ++ r.2.map RouteEffect.insertAd
        ++ [RouteEffect.callback, RouteEffect.continueRoute], r.1)
    else
      ([RouteEffect.fetch, RouteEffect.writeFile] ++ r.2.map RouteEffect.insertAd
        ++ [RouteEffect.callback, RouteEffect.continueRoute], r.1)

/-- C7: for every intercepted response, whatever fails — JSON decode, audit
file write, any per-record database insert, or the pagination callback —
the handler performs `route.continue()` exactly once, as its final action:
the original network response is always allowed to continue. -/
theorem interception_always_continues (env : RouteEnv) (st : PrismaStore)
    (ms : List TikTokAdMaterial) (cc : String) :
    (routeHandler env st ms cc).1.count RouteEffect.continueRoute = 1 ∧
    (routeHandler env st ms cc).1.getLast? = some RouteEffect.continueRoute := by
  have hmap : ∀ ks : List String,
      (ks.map RouteEffect.insertAd).count RouteEffect.continueRoute = 0 := by
    intro ks
    rw [List.count_eq_zero]
    intro h
    obtain ⟨k, _, hk⟩ := List.mem_map.mp h
    cases hk
  unfold routeHandler
  cases hf : env.fetchOk with
  | false => exact ⟨rfl, rfl⟩
  | true =>
    cases hw : env.writeOk with
    | false => exact ⟨rfl, rfl⟩
    | true =>
      cases hc : env.callbackOk <;>
      · simp only [Bool.not_true, Bool.false_eq_true, if_false, if_true]
        constructor
        · simp [List.count_append, List.count_cons, hmap]
        · rw [show [RouteEffect.callback, RouteEffect.continueRoute] =
            [RouteEffect.callback] ++ [RouteEffect.continueRoute] from rfl,
            ← List.append_assoc]
          exact List.getLast?_concat _

/-! ## SQLite storage backend (`SQLiteDatabase.insertAd`)

The SQLite store has the four tables created by `initializeTables`:
`ads` (primary key `id`), `video_info` (primary key `vid`), `video_urls`
(unique `videoInfoId`) as (p720, videoInfoId) pairs, and `processed_items`
(primary key `itemKey`). `insertAd` runs `BEGIN TRANSACTION`, the writes,
and `COMMIT`; any failing write triggers `ROLLBACK` and re-raises. -/

/-- The SQLite store. -/
structure SqliteStore where
  ads : List AdRow
  videoInfos : List String
  videoUrls : List (String × String)
  processedItems : List String
deriving DecidableEq, Repr

/-- The empty SQLite store. -/
def SqliteStore.empty : SqliteStore := ⟨[], [], [], []⟩

/-- The video-info part of the uncommitted write sequence of `insertAd`:
insert the `video_info` row (guarded by a `SELECT vid`), and its
`video_urls` row, which fails on a duplicate unique `videoInfoId`. -/
def sqliteVideoStep (st : SqliteStore) (d : AdData) : Except String SqliteStore :=
  match d.videoInfo with
  | none => .ok st
  | some v =>
    if st.videoInfos.contains v.vid then .ok st
    else
      match v.videoUrl with
      | none => .ok { st with videoInfos := st.videoInfos ++ [v.vid] }
      | some u =>
        if st.videoUrls.any (fun e => e.2 == v.vid) then
          .error "UNIQUE constraint failed: video_urls.videoInfoId"
        else
          .ok { st with
                  videoInfos := st.videoInfos ++ [v.vid]
                  videoUrls := st.videoUrls ++ [(u.p720, v.vid)] }

/-- The full uncommitted write sequence of `insertAd`, on a working copy of
the store: the video-info step, then the `ads` insert (failing on a
duplicate primary key `id`), then the `processed_items` insert (failing on a
duplicate `itemKey`). -/
def sqliteInsertSteps (st : SqliteStore) (d : AdData) : Except String SqliteStore :=
  match sqliteVideoStep st d with
  | .error e => .error e
  | .ok st1 =>
    if st1.ads.any (fun a => a.id == d.id) then
      .error "UNIQUE constraint failed: ads.id"
    else if st1.processedItems.contains d.id then
      .error "UNIQUE constraint failed: processed_items.itemKey"
    else
      .ok { st1 with
              ads := st1.ads ++ [adRowOf d]
              processedItems := st1.processedItems ++ [d.id] }

/-- `SQLiteDatabase.insertAd`: run the writes inside the transaction; on
success `COMMIT` the working copy, on any failure `ROLLBACK` — the visible
store is the pre-transaction one — and raise the wrapped error. -/
def sqliteInsertAd (st : SqliteStore) (d : AdData) : SqliteStore × Option String :=
  match sqliteInsertSteps st d with
  | .ok st2 => (st2, none)
  | .error e => (st, some ("Failed to insert ad: " ++ e))

/-- Record/marker pairing invariant: every `ads` row has its
`processed_items` marker and every marker belongs to a stored row. -/
def markerInv (st : SqliteStore) : Prop :=
  (∀ a ∈ st.ads, a.id ∈ st.processedItems) ∧
  (∀ k ∈ st.processedItems, ∃ a ∈ st.ads, a.id = k)

theorem sqliteVideoStep_ok (st : SqliteStore) (d : AdData) (stm : SqliteStore)
    (h : sqliteVideoStep st d = .ok stm) :
    stm.ads = st.ads ∧ stm.processedItems = st.processedItems := by
  unfold sqliteVideoStep at h
  split at h
  · cases h; exact ⟨rfl, rfl⟩
  · split at h
    · cases h; exact ⟨rfl, rfl⟩
    · split at h
      · cases h; exact ⟨rfl, rfl⟩
      · split at h
        · cases h
        · cases h; exact ⟨rfl, rfl⟩

theorem sqliteInsertSteps_ok (st : SqliteStore) (d : AdData) (st2 : SqliteStore)
    (h : sqliteInsertSteps st d = .ok st2) :
    st2.ads = st.ads ++ [adRowOf d] ∧
    st2.processedItems = st.processedItems ++ [d.id] := by
  unfold sqliteInsertSteps at h
  split at h
  · cases h
  · rename_i st1 heq
    obtain ⟨h1a, h1p⟩ := sqliteVideoStep_ok st d st1 heq
    split at h
    · cases h
    · split at h
      · cases h
      · cases h
        exact ⟨by rw [h1a], by rw [h1p]⟩

/-- C8: `insertAd` writes the `ads` row and its `processed_items` marker in
one transaction: on success the store gains exactly the row and its marker;
on any failing write the transaction is rolled back — the store is returned
unchanged — and an error is raised; and the record-iff-marker invariant is
preserved in both cases. -/
theorem sqliteInsertAd_atomic (st : SqliteStore) (d : AdData) (hinv : markerInv st) :
    ((sqliteInsertAd st d).2 = none →
      (sqliteInsertAd st d).1.ads = st.ads ++ [adRowOf d] ∧
      (sqliteInsertAd st d).1.processedItems = st.processedItems ++ [d.id]) ∧
    (∀ e, (sqliteInsertAd st d).2 = some e → (sqliteInsertAd st d).1 = st) ∧
    markerInv (sqliteInsertAd st d).1 := by
  cases hs : sqliteInsertSteps st d with
  | error e =>
    have hr : sqliteInsertAd st d = (st, some ("Failed to insert ad: " ++ e)) := by
      unfold sqliteInsertAd
      rw [hs]
    rw [hr]
    exact ⟨fun h => absurd h (by simp), fun _ _ => rfl, hinv⟩
  | ok st' =>
    have hr : sqliteInsertAd st d = (st', none) := by
      unfold sqliteInsertAd
      rw [hs]
    obtain ⟨hads, hpi⟩ := sqliteInsertSteps_ok st d st' hs
    rw [hr]
    refine ⟨fun _ => ⟨hads, hpi⟩, fun e h => absurd h (by simp), ?_⟩
    show (∀ a ∈ st'.ads, a.id ∈ st'.processedItems) ∧
      (∀ k ∈ st'.processedItems, ∃ a ∈ st'.ads, a.id = k)
    constructor
    · intro a ha
      rw [hads] at ha
      rw [hpi]
      rcases List.mem_append.mp ha with ha | ha
      · exact List.mem_append_left _ (hinv.1 a ha)
      · simp only [List.mem_singleton] at ha
        subst ha
        exact List.mem_append_right _ (by simp [adRowOf])
    · intro k hk
      rw [hpi] at hk
      rw [hads]
      rcases List.mem_append.mp hk with hk | hk
      · obtain ⟨a, ha, hak⟩ := hinv.2 k hk
        exact ⟨a, List.mem_append_left _ ha, hak⟩
      · simp only [List.mem_singleton] at hk
        subst hk
        refine ⟨adRowOf d, List.mem_append_right _ (by simp), ?_⟩
        simp [adRowOf]

theorem sqliteInsertAd_atomic_witness :
    ((sqliteInsertAd SqliteStore.empty
        ⟨"ad1", "US", "ad1", "brand", "brand", "meta", none⟩).2 = none →
      (sqliteInsertAd SqliteStore.empty
        ⟨"ad1", "US", "ad1", "brand", "brand", "meta", none⟩).1.ads =
        SqliteStore.empty.ads ++ [adRowOf ⟨"ad1", "US", "ad1", "brand", "brand", "meta", none⟩] ∧
      (sqliteInsertAd SqliteStore.empty
        ⟨"ad1", "US", "ad1", "brand", "brand", "meta", none⟩).1.processedItems =
        SqliteStore.empty.processedItems ++ ["ad1"]) ∧
    (∀ e, (sqliteInsertAd SqliteStore.empty
        ⟨"ad1", "US", "ad1", "brand", "brand", "meta", none⟩).2 = some e →
      (sqliteInsertAd SqliteStore.empty
        ⟨"ad1", "US", "ad1", "brand", "brand", "meta", none⟩).1 = SqliteStore.empty) ∧
    markerInv (sqliteInsertAd SqliteStore.empty
        ⟨"ad1", "US", "ad1", "brand", "brand", "meta", none⟩).1 :=
  sqliteInsertAd_atomic SqliteStore.empty
    ⟨"ad1", "US", "ad1", "brand", "brand", "meta", none⟩
    ⟨by simp [SqliteStore.empty], by simp [SqliteStore.empty]⟩

/-! ## Challenge detectors
(`src/steps/captcha-detection-step.ts`, `src/steps/handleCaptcha.ts`, and
`checkEmailVerification` of the CAPTCHA-solver step)

A probe of one selector answers `timeout` (`waitForSelector` threw after
its 1s timeout / `page.$` returned null) or `found visible`. -/

/-- Outcome of probing one selector. -/
inductive ProbeResult where
  | timeout
  | found (visible : Bool)
deriving DecidableEq, Repr

/-- The shared CAPTCHA selector list of `checkForCaptcha` and
`handleCaptcha`. -/
def captchaSelectors : List String :=
  ["div.captcha_verify_container",
   "div[class*=\"captcha\"]",
   "iframe[src*=\"captcha\"]",
   "div[id*=\"captcha\"]",
   "img[src*=\"captcha\"]",
   "div:has-text(\"Verify you are human\")",
   "div:has-text(\"Security check\")",
   "div:has-text(\"Please verify\")",
   "div:has-text(\"Select 2 objects that are the same shape\")"]

/-- Email-verification form selectors of `checkEmailVerification`. -/
def emailSelectors : List String :=
  ["div.tiktokads-common-login-code-form-item",
   "#TikTok_Ads_SSO_Login_Code_FormItem",
   "input[name=\"code\"][placeholder=\"Enter verification code\"]"]

/-- Page/solver oracles for the detectors: what each selector probe answers,
whether the solver finds the CAPTCHA element (and its bounding box), and
whether the remote solving API returns a solution. -/
structure DetectEnv where
  probe : String → ProbeResult
  solverElementFound : Bool
  solverApiOk : Bool

/-- The probe loop of `checkForCaptcha`: each selector is probed inside its
own `try/catch`, so a timeout (non-matching selector) moves on to the next
selector; the first visible match wins. -/
def firstVisibleSelector (env : DetectEnv) : List String → Option String
  | [] => none
  | s :: rest =>
    match env.probe s with
    | .found true => some s
    | _ => firstVisibleSelector env rest

/-- `SadCaptchaService.solveCaptcha(page, captchaImageSelector,
screenshotPath)`: its first guard `if (!screenshotPath)` logs and returns
false before touching the page when no screenshot path was passed; with a
path, it clicks two points when the CAPTCHA element is found and the remote
API returns coordinates, and returns false with zero clicks on its internal
failure paths. Result: (clicks issued on the page, returned boolean). -/
def solveCaptcha (env : DetectEnv) (screenshotPath : Option String) : Nat × Bool :=
  match screenshotPath with
  | none => (0, false)
  | some _ =>
    if env.solverElementFound && env.solverApiOk then (2, true) else (0, false)

/-- Result shape of `checkForCaptcha`: `{ detected, screenshotPath,
solved? }` in the source; the `screenshotPath` member (a timestamped
artifact filename) is not modelled — no claim inspects it. -/
structure CaptchaCheckResult where
  detected : Bool
  solved : Option Bool
deriving DecidableEq, Repr

/-- `checkForCaptcha` of `captcha-detection-step.ts`: probe the selector
list; when a CAPTCHA is detected it attempts an automatic solve, but its
call `sadCaptchaService.solveCaptcha(page, captchaSelector)` omits the
solver's required `screenshotPath` argument, so the solver exits at its
first guard: `solved` is always false and no click is ever issued. Returns
the result together with the number of clicks performed on the page. -/
def checkForCaptcha (env : DetectEnv) : CaptchaCheckResult × Nat :=
  match firstVisibleSelector env captchaSelectors with
  | some _ =>
    ({ detected := true, solved := some (solveCaptcha env none).2 },
     (solveCaptcha env none).1)
  | none => ({ detected := false, solved := none }, 0)

/-- The probe loop of `handleCaptcha` (`handleCaptcha.ts` lines 33–41): the
`waitForSelector` call has no per-selector `try/catch`, so the first timeout
propagates out of the loop. -/
def handleCaptchaProbeLoop (env : DetectEnv) : List String → Except String Bool
  | [] => .ok false
  | s :: rest =>
    match env.probe s with
    | .timeout => .error "Timeout 1000ms exceeded"
    | .found true => .ok true
    | .found false => handleCaptchaProbeLoop env rest

/-- `handleCaptcha`: the outer catch converts any probe error into a `false`
return (it logs and reports no CAPTCHA handled). On a visible match the
manual-intervention flow runs and the function returns `true`. -/
def handleCaptcha (env : DetectEnv) : Bool :=
  match handleCaptchaProbeLoop env captchaSelectors with
  | .ok b => b
  | .error _ => false

/-- `checkEmailVerification`: `page.$` misses (`timeout` here) and invisible
elements both just move on; any visible match returns true. -/
def checkEmailVerification (env : DetectEnv) : List String → Bool
  | [] => false
  | s :: rest =>
    match env.probe s with
    | .found true => true
    | _ => checkEmailVerification env rest

/-- Page oracle for the C9 counterexample: the first CAPTCHA selector times
out, the second is visible. -/
def detectEnvMiss : DetectEnv :=
  { probe := fun s => if s = "div[class*=\"captcha\"]" then .found true else .timeout
    solverElementFound := false
    solverApiOk := false }

/-- C9 (counterexample): with the first selector timing out and the second
visible, `handleCaptcha` returns false — the miss on the first selector
skips the remaining selectors, its timeout propagating to the outer catch —
even though `checkForCaptcha`, whose probe loop catches per-selector
timeouts, detects the CAPTCHA on the same page. -/
theorem detectors_counterexample :
    handleCaptcha detectEnvMiss = false ∧
    (checkForCaptcha detectEnvMiss).1.detected = true := by
  decide

/-- C9 (amended): `checkForCaptcha` and `checkEmailVerification` probe every
selector of their ordered lists with a per-probe timeout and per-probe error
handling, so a miss on one selector does not skip the remaining selectors,
and return a plain "absent" result without throwing when nothing matches;
`checkForCaptcha` issues no clicks on any page state — the automatic solve
it attempts on detection omits the solver's required screenshot-path
argument, so the solver returns false at its first guard before touching
the page; `handleCaptcha`, by contrast, aborts its probe loop on the first
timing-out selector, its outer catch turning the timeout into a `false`
return. -/
theorem detectors_amended (env : DetectEnv) :
    ((∀ s ∈ captchaSelectors, env.probe s ≠ .found true) →
      (checkForCaptcha env).1.detected = false ∧ (checkForCaptcha env).2 = 0) ∧
    ((∀ s ∈ emailSelectors, env.probe s ≠ .found true) →
      checkEmailVerification env emailSelectors = false) ∧
    (env.probe "div.captcha_verify_container" = .timeout →
      handleCaptcha env = false) ∧
    ((checkForCaptcha env).2 = 0) := by
  have hfv : ∀ l : List String, (∀ s ∈ l, env.probe s ≠ .found true) →
      firstVisibleSelector env l = none := by
    intro l
    induction l with
    | nil => intro _; rfl
    | cons s rest ih =>
      intro hl
      unfold firstVisibleSelector
      have hs : env.probe s ≠ .found true := hl s (by simp)
      cases hp : env.probe s with
      | timeout => exact ih (fun v hv => hl v (by simp [hv]))
      | found b =>
        cases b with
        | true => exact absurd hp hs
        | false => exact ih (fun v hv => hl v (by simp [hv]))
  have hem : ∀ l : List String, (∀ s ∈ l, env.probe s ≠ .found true) →
      checkEmailVerification env l = false := by
    intro l
    induction l with
    | nil => intro _; rfl
    | cons s rest ih =>
      intro hl
      unfold checkEmailVerification
      have hs : env.probe s ≠ .found true := hl s (by simp)
      cases hp : env.probe s with
      | timeout => exact ih (fun v hv => hl v (by simp [hv]))
      | found b =>
        cases b with
        | true => exact absurd hp hs
        | false => exact ih (fun v hv => hl v (by simp [hv]))
  refine ⟨?_, hem emailSelectors, ?_, ?_⟩
  · intro h
    unfold checkForCaptcha
    rw [hfv captchaSelectors h]
    exact ⟨rfl, rfl⟩
  · intro h
    unfold handleCaptcha captchaSelectors handleCaptchaProbeLoop
    rw [h]
  · unfold checkForCaptcha
    cases hf : firstVisibleSelector env captchaSelectors with
    | none => rfl
    | some s => rfl

/-- Page oracle where every probe times out. -/
def detectEnvTimeoutAll : DetectEnv :=
  { probe := fun _ => .timeout, solverElementFound := false, solverApiOk := false }

theorem detectors_amended_witness :
    ((checkForCaptcha detectEnvTimeoutAll).1.detected = false ∧
      (checkForCaptcha detectEnvTimeoutAll).2 = 0) ∧
    checkEmailVerification detectEnvTimeoutAll emailSelectors = false ∧
    handleCaptcha detectEnvTimeoutAll = false ∧
    (checkForCaptcha detectEnvMiss).2 = 0 :=
  ⟨(detectors_amended detectEnvTimeoutAll).1 (by decide),
   (detectors_amended detectEnvTimeoutAll).2.1 (by decide),
   (detectors_amended detectEnvTimeoutAll).2.2.1 (by decide),
   (detectors_amended detectEnvMiss).2.2.2⟩

/-! ## CAPTCHA wait loop (`handleCaptchaSolverApi`)

After a CAPTCHA is detected, both the manual mode and the API mode (after
the automatic solve attempt) run the same bounded wait: up to 360 attempts,
one every 10 seconds (1 hour). Each attempt checks the email-verification
form, then tries the confirm-button sequence; the per-attempt `try/catch`
absorbs probe errors. The per-attempt page state is an oracle indexed by the
attempt number. -/

/-- One confirm-button probe of `attemptCaptchaConfirmation`: `clickable`
bundles "visible, enabled, and the click does not throw". -/
structure ConfirmBtn where
  clickable : Bool
deriving DecidableEq, Repr

/-- Page oracles for the wait loop, indexed by attempt number. -/
structure CaptchaWaitEnv where
  emailVisible : Nat → Bool
  confirmBtns : Nat → List ConfirmBtn
  captchaPresent : Nat → Bool

/-- `attemptCaptchaConfirmation`: walk the confirm-button selector list; for
a clickable button, click it, then succeed if the email form appeared or the
CAPTCHA selector is gone; otherwise (and on non-clickable buttons) continue
with the next selector. Note success requires a clickable confirm button:
the CAPTCHA being gone is only checked after a click. -/
def attemptCaptchaConfirmation (env : CaptchaWaitEnv) (t : Nat) : List ConfirmBtn → Bool
  | [] => false
  | b :: rest =>
    if b.clickable then
      if env.emailVisible t then true
      else if !env.captchaPresent t then true
      else attemptCaptchaConfirmation env t rest
    else attemptCaptchaConfirmation env t rest

/-- The timeout error raised after the attempt bound. -/
def manualTimeoutMsg : String := "Manual verification timed out after 60 minutes"

/-- The wait loop (`while (attempts < maxAttempts)`): check the email form,
then the confirm sequence, else wait 10s and try again; when the fuel `r`
(initially 360) runs out, throw the timeout error. -/
def captchaWaitLoop (env : CaptchaWaitEnv) : Nat → Nat → Except String Bool
  | _, 0 => .error manualTimeoutMsg
  | t, r + 1 =>
    if env.emailVisible t then .ok true
    else if attemptCaptchaConfirmation env t (env.confirmBtns t) then .ok true
    else captchaWaitLoop env (t + 1) r

/-- `handleCaptchaSolverApi` after the detection step: with no CAPTCHA
detected it returns false immediately; otherwise (both modes) it runs the
360-attempt wait loop, and the outer catch rewraps the timeout error into
the fatal process-aborting error it re-throws to the caller. -/
def handleCaptchaSolverApiWait (env : CaptchaWaitEnv) : Bool → Except String Bool
  | false => .ok false
  | true =>
    match captchaWaitLoop env 0 360 with
    | .ok b => .ok b
    | .error e => .error ("CAPTCHA handling failed: " ++ e ++ ". Process aborted.")

/-- The condition under which one attempt of the wait loop succeeds. -/
def pollSuccess (env : CaptchaWaitEnv) (t : Nat) : Bool :=
  env.emailVisible t ||
    ((env.confirmBtns t).any ConfirmBtn.clickable && !env.captchaPresent t)

theorem attemptConfirm_eq (env : CaptchaWaitEnv) (t : Nat) (btns : List ConfirmBtn) :
    attemptCaptchaConfirmation env t btns =
      (btns.any ConfirmBtn.clickable && (env.emailVisible t || !env.captchaPresent t)) := by
  induction btns with
  | nil => rfl
  | cons b rest ih =>
    unfold attemptCaptchaConfirmation
    cases hcl : b.clickable with
    | false => simp [List.any_cons, hcl, ih]
    | true =>
      cases he : env.emailVisible t with
      | true => simp [List.any_cons, hcl, he]
      | false =>
        cases hc : env.captchaPresent t with
        | true => simp [List.any_cons, hcl, he, hc, ih]
        | false => simp [List.any_cons, hcl, he, hc]

theorem loopHead_eq (env : CaptchaWaitEnv) (t : Nat) :
    (env.emailVisible t || attemptCaptchaConfirmation env t (env.confirmBtns t)) =
      pollSuccess env t := by
  rw [attemptConfirm_eq]
  cases he : env.emailVisible t <;> cases hp : env.captchaPresent t <;>
    cases ha : (env.confirmBtns t).any ConfirmBtn.clickable <;>
      simp [pollSuccess, he, hp, ha]

theorem captchaWaitLoop_spec (env : CaptchaWaitEnv) : ∀ (r t0 : Nat),
    (captchaWaitLoop env t0 r = .ok true ∨
      captchaWaitLoop env t0 r = .error manualTimeoutMsg) ∧
    (captchaWaitLoop env t0 r = .ok true ↔
      ∃ t, t0 ≤ t ∧ t < t0 + r ∧ pollSuccess env t = true) := by
  intro r
  induction r with
  | zero =>
    intro t0
    refine ⟨Or.inr rfl, ?_, ?_⟩
    · intro h; exact absurd h (by simp [captchaWaitLoop])
    · rintro ⟨t, h1, h2, _⟩; omega
  | succ r ih =>
    intro t0
    have hhead := loopHead_eq env t0
    by_cases he : env.emailVisible t0 = true
    · have hl : captchaWaitLoop env t0 (r + 1) = .ok true := by
        unfold captchaWaitLoop
        rw [if_pos he]
      have hps : pollSuccess env t0 = true := by
        rw [← hhead, he]
        rfl
      rw [hl]
      exact ⟨Or.inl rfl, fun _ => ⟨t0, le_refl _, by omega, hps⟩, fun _ => rfl⟩
    · have he' : env.emailVisible t0 = false := Bool.eq_false_iff.mpr he
      by_cases ha : attemptCaptchaConfirmation env t0 (env.confirmBtns t0) = true
      · have hl : captchaWaitLoop env t0 (r + 1) = .ok true := by
          unfold captchaWaitLoop
          rw [if_neg he, if_pos ha]
        have hps : pollSuccess env t0 = true := by
          rw [← hhead, he', ha]
          rfl
        rw [hl]
        exact ⟨Or.inl rfl, fun _ => ⟨t0, le_refl _, by omega, hps⟩, fun _ => rfl⟩
      · have ha' : attemptCaptchaConfirmation env t0 (env.confirmBtns t0) = false :=
          Bool.eq_false_iff.mpr ha
        have hl : captchaWaitLoop env t0 (r + 1) = captchaWaitLoop env (t0 + 1) r := by
          show (if env.emailVisible t0 then (.ok true : Except String Bool)
                else if attemptCaptchaConfirmation env t0 (env.confirmBtns t0) then .ok true
                else captchaWaitLoop env (t0 + 1) r) = captchaWaitLoop env (t0 + 1) r
          rw [if_neg he, if_neg ha]
        have hps : pollSuccess env t0 = false := by
          rw [← hhead, he', ha']
          rfl
        rw [hl]
        obtain ⟨hor, hiff⟩ := ih (t0 + 1)
        refine ⟨hor, ?_⟩
        rw [hiff]
        constructor
        · rintro ⟨t, h1, h2, h3⟩
          exact ⟨t, by omega, by omega, h3⟩
        · rintro ⟨t, h1, h2, h3⟩
          refine ⟨t, ?_, by omega, h3⟩
          rcases Nat.eq_or_lt_of_le h1 with heq | hlt
          · subst heq
            rw [h3] at hps
            cases hps
          · omega

/-- C6 (amended): with no CAPTCHA detected the orchestrator returns false at
once; with a CAPTCHA detected it polls up to 360 times (every ~10s, the
1-hour bound) and returns success exactly when some attempt within the bound
sees the email-verification form, or clicks a clickable confirm button and
then sees the email form or the CAPTCHA indicator gone — the indicator
being gone alone, with no clickable confirm button, is not a success
condition; if no attempt succeeds it raises the fatal process-aborting
error, never silently returning success or waiting unboundedly. -/
theorem captcha_wait_amended (env : CaptchaWaitEnv) :
    handleCaptchaSolverApiWait env false = .ok false ∧
    (handleCaptchaSolverApiWait env true = .ok true ↔
      ∃ t, t < 360 ∧ pollSuccess env t = true) ∧
    ((∀ t, t < 360 → pollSuccess env t = false) →
      handleCaptchaSolverApiWait env true =
        .error ("CAPTCHA handling failed: " ++ manualTimeoutMsg ++ ". Process aborted.")) := by
  obtain ⟨hor, hiff⟩ := captchaWaitLoop_spec env 360 0
  refine ⟨rfl, ?_, ?_⟩
  · rcases hor with h | h
    · have hw : handleCaptchaSolverApiWait env true = .ok true := by
        unfold handleCaptchaSolverApiWait
        rw [h]
      rw [hw]
      refine ⟨fun _ => ?_, fun _ => rfl⟩
      obtain ⟨t, _, h2, h3⟩ := hiff.mp h
      exact ⟨t, by omega, h3⟩
    · have hw : handleCaptchaSolverApiWait env true =
          .error ("CAPTCHA handling failed: " ++ manualTimeoutMsg ++ ". Process aborted.") := by
        unfold handleCaptchaSolverApiWait
        rw [h]
      rw [hw]
      constructor
      · intro hh
        exact absurd hh (by simp)
      · rintro ⟨t, h1, h2⟩
        have hok : captchaWaitLoop env 0 360 = .ok true := hiff.mpr ⟨t, by omega, by omega, h2⟩
        rw [h] at hok
        exact absurd hok (by simp)
  · intro hnone
    have hne : captchaWaitLoop env 0 360 ≠ .ok true := by
      intro hok
      obtain ⟨t, _, h2, h3⟩ := hiff.mp hok
      rw [hnone t (by omega)] at h3
      cases h3
    rcases hor with h | h
    · exact absurd h hne
    · unfold handleCaptchaSolverApiWait
      rw [h]

/-- Page oracle for the C6 counterexample: the CAPTCHA indicator is gone
from the very first poll, the email form never appears, and no confirm
button is ever visible. -/
def captchaGoneEnv : CaptchaWaitEnv :=
  { emailVisible := fun _ => false
    confirmBtns := fun _ => []
    captchaPresent := fun _ => false }

set_option maxRecDepth 4000 in
/-- C6 (counterexample): with the CAPTCHA indicator gone at every poll but
no confirm button ever clickable, the wait loop never returns success — it
spins for the full hour and throws the timeout — although the claim says it
returns success as soon as the indicator is confirmed gone. -/
theorem captcha_wait_counterexample :
    handleCaptchaSolverApiWait captchaGoneEnv true =
      .error "CAPTCHA handling failed: Manual verification timed out after 60 minutes. Process aborted." ∧
    captchaGoneEnv.captchaPresent 0 = false ∧
    captchaGoneEnv.confirmBtns 0 = [] ∧
    captchaGoneEnv.emailVisible 0 = false := by
  refine ⟨?_, rfl, rfl, rfl⟩
  rfl

theorem captcha_wait_amended_witness :
    handleCaptchaSolverApiWait captchaGoneEnv false = .ok false ∧
    handleCaptchaSolverApiWait captchaGoneEnv true =
      .error ("CAPTCHA handling failed: " ++ manualTimeoutMsg ++ ". Process aborted.") :=
  ⟨(captcha_wait_amended captchaGoneEnv).1,
   (captcha_wait_amended captchaGoneEnv).2.2 (fun _ _ => rfl)⟩
